import Mathlib

/-!
Shallow embedding of the OnTime prayer app's notification schedulers
(`src/services/athanService.ts`) and travel/geofence state machine
(`src/context/TravelContext.tsx`).

Conventions of the embedding:
* Instants are milliseconds on an idealized local clock (`Int`), with uniform
  86400000 ms days; `LocalTime` decomposes an instant into whole days since
  the Unix epoch (Jan 1 1970, a Thursday) plus milliseconds within the day,
  mirroring the JavaScript `Date` day/field arithmetic the source uses.
* The astronomical prayer-time computation (`calculatePrayerTimes`) is the
  external collaborator the spec assumes given; it enters as an oracle
  `times : Nat → PrayerName → Int` giving, for each day offset of the window,
  the instant of each of the six fixed daily prayers of that day.
* The external scheduling service's pending set is a list of events carrying
  the two fields its `listPending` exposes: numeric id and fire time.  The
  remaining notification payload (title, body, sound, channel) is a
  deterministic function of the same inputs and carries no scheduling content.
* JavaScript number arithmetic on distances and day differences is embedded
  as exact rational arithmetic (`ℚ`); the haversine distance function is an
  abstract parameter `dist`, since no claim depends on its closed form.
* The `async` scheduling passes are single-threaded state transformers on the
  pending set (the spec's concurrency model forbids overlapping passes); the
  permission gate is a boolean input, and each pass additionally reports
  whether it consulted the permission gate.
-/

namespace OnTime

/-! ### Prayer names and notification IDs (athanService.ts) -/

/-- The six fixed daily prayers (`PrayerName` in `types.ts`). -/
inductive PrayerName
  | fajr
  | sunrise
  | dhuhr
  | asr
  | maghrib
  | isha
deriving DecidableEq, Repr, Fintype

/-- `PRAYER_BASE_IDS`: base notification id of each prayer's 100-wide band. -/
def PRAYER_BASE_IDS : PrayerName → Nat
  | .fajr => 100
  | .sunrise => 200
  | .dhuhr => 300
  | .asr => 400
  | .maghrib => 500
  | .isha => 600

/-- `JUMUAH_BASE_ID`: Jumu'ah notifications live in the 700-799 id range. -/
def JUMUAH_BASE_ID : Nat := 700

/-- `AT_TIME_OFFSET`: reminder id = base, at-time id = base + 1. -/
def AT_TIME_OFFSET : Nat := 1

/-- `DAYS_TO_SCHEDULE`: days ahead the daily scheduler covers. -/
def DAYS_TO_SCHEDULE : Nat := 7

/-- `WEEKS_TO_SCHEDULE_JUMUAH`: weeks ahead the weekly scheduler covers. -/
def WEEKS_TO_SCHEDULE_JUMUAH : Nat := 4

/-- `getNotificationId(prayer, dayOffset, isAtTime)` from athanService.ts:
`baseId + dayOffset * 10 + (isAtTime ? 1 : 0)`. -/
def getNotificationId (prayer : PrayerName) (dayOffset : Nat) (isAtTime : Bool) : Nat :=
  PRAYER_BASE_IDS prayer + dayOffset * 10 + (if isAtTime then AT_TIME_OFFSET else 0)

/-- The six core prayers, in the chronological order in which the prayer-times
collaborator lists them for one day (optional sunnah entries are filtered out
by `isCorePrayer` in the source before the scheduling loop). -/
def corePrayers : List PrayerName :=
  [.fajr, .sunrise, .dhuhr, .asr, .maghrib, .isha]

/-! ### Notification settings (types.ts) -/

/-- Per-prayer notification settings (`PrayerNotificationSettings`).
`reminderMinutes` is a non-negative minute count (0 = reminder disabled);
the `sound` field only affects the delivery payload and is omitted. -/
structure PrayerNotificationSettings where
  enabled : Bool
  reminderMinutes : Nat
  atPrayerTime : Bool
deriving DecidableEq, Repr

/-- Global notification settings (`NotificationSettings`): master switch plus
a per-prayer record. -/
structure NotificationSettings where
  enabled : Bool
  prayers : PrayerName → PrayerNotificationSettings

/-- One pending event of the external scheduling service, as exposed by
`LocalNotifications.getPending`: numeric id and fire instant (ms). -/
structure NotifEvent where
  id : Nat
  fireAt : Int
deriving DecidableEq, Repr

/-- Result of one scheduling pass: the pending set it leaves behind, and
whether the pass consulted the notification-permission gate. -/
structure SchedulerResult where
  pending : List NotifEvent
  permissionRequested : Bool
deriving DecidableEq, Repr

/-! ### The daily scheduler (`scheduleNotifications`) -/

/-- `cancelAllNotifications` from athanService.ts: fetches the pending set and
cancels every entry in it, whatever its id.  The resulting pending set is
empty. -/
def cancelAllNotifications (_pending : List NotifEvent) : List NotifEvent := []

/-- The events the daily pass emits for one (dayOffset, prayer) pair: a
reminder event when `reminderMinutes > 0` and the reminder instant is strictly
future, then an at-time event when `atPrayerTime` is set and the prayer
instant is strictly future. -/
def prayerDayEvents (times : Nat → PrayerName → Int) (s : NotificationSettings)
    (now : Int) (dayOffset : Nat) (prayer : PrayerName) : List NotifEvent :=
  let ps := s.prayers prayer
  if ps.enabled then
    (if 0 < ps.reminderMinutes ∧
        now < times dayOffset prayer - (ps.reminderMinutes : Int) * 60000 then
      [⟨getNotificationId prayer dayOffset false,
        times dayOffset prayer - (ps.reminderMinutes : Int) * 60000⟩]
    else []) ++
    (if ps.atPrayerTime ∧ now < times dayOffset prayer then
      [⟨getNotificationId prayer dayOffset true, times dayOffset prayer⟩]
    else [])
  else []

/-- All events the daily pass batches: for each of the `DAYS_TO_SCHEDULE` day
offsets, for each core prayer of that day, the events of
`prayerDayEvents`. -/
def dailyEvents (times : Nat → PrayerName → Int) (s : NotificationSettings)
    (now : Int) : List NotifEvent :=
  (List.range DAYS_TO_SCHEDULE).flatMap fun d =>
    corePrayers.flatMap fun p => prayerDayEvents times s now d p

/-- `scheduleNotifications` from athanService.ts as a state transformer on the
external pending set.  Disabled: cancel everything and return without asking
for permission.  Permission denied: return leaving the pending set untouched.
Otherwise: cancel everything, then batch-schedule the window's events. -/
def scheduleNotifications (hasPermission : Bool) (pending : List NotifEvent)
    (times : Nat → PrayerName → Int) (s : NotificationSettings) (now : Int) :
    SchedulerResult :=
  if s.enabled = false then
    { pending := cancelAllNotifications pending, permissionRequested := false }
  else if hasPermission = false then
    { pending := pending, permissionRequested := true }
  else
    { pending := cancelAllNotifications pending ++ dailyEvents times s now,
      permissionRequested := true }

/-! ### The weekly Jumu'ah scheduler (`scheduleJumuahNotifications`) -/

/-- One configured Jumu'ah time slot: the khutbah time-of-day, already split
from its `"HH:MM"` string into hour and minute numbers. -/
structure JumuahTime where
  khutbahHour : Int
  khutbahMinute : Int
deriving DecidableEq, Repr

/-- `JumuahSettings` from types.ts (the `masjidName` only affects the
notification body and is omitted). -/
structure JumuahSettings where
  enabled : Bool
  times : List JumuahTime
  reminderMinutes : Int
deriving DecidableEq, Repr

/-- Milliseconds per day. -/
def msPerDay : Int := 86400000

/-- Milliseconds per minute. -/
def msPerMinute : Int := 60000

/-- A local wall-clock instant: whole days since the Unix epoch plus
milliseconds within the day (a well-formed instant has `0 ≤ ms < msPerDay`). -/
structure LocalTime where
  day : Int
  ms : Int
deriving DecidableEq, Repr

/-- The instant as plain milliseconds. -/
def LocalTime.toMs (t : LocalTime) : Int := t.day * msPerDay + t.ms

/-- JavaScript `Date.getDay()` (0 = Sunday .. 6 = Saturday); Jan 1 1970 was a
Thursday (4). -/
def getDay (t : LocalTime) : Int := (t.day + 4) % 7

/-- `(5 - now.getDay() + 7) % 7 || 7` from the source: days from `now` to the
next scheduled Friday; on a Friday this is 7, never 0. -/
def daysUntilFriday (t : LocalTime) : Int :=
  if (5 - getDay t + 7) % 7 = 0 then 7 else (5 - getDay t + 7) % 7

/-- Fire instant of the reminder for week `weekOffset` and a given slot:
midnight of the target Friday plus `setHours(khutbahHour,
khutbahMinute - reminderMinutes, 0, 0)` (JavaScript normalizes a negative
minute field by rolling the clock back). -/
def jumuahFires (js : JumuahSettings) (now : LocalTime) (weekOffset : Nat)
    (slot : JumuahTime) : Int :=
  (now.day + daysUntilFriday now + (weekOffset : Int) * 7) * msPerDay +
    (slot.khutbahHour * 60 + slot.khutbahMinute - js.reminderMinutes) * msPerMinute

/-- The events the weekly pass emits for one week offset: one event per
configured time slot whose fire instant is strictly future, with id
`JUMUAH_BASE_ID + weekOffset * 10 + timeIndex`. -/
def jumuahWeekEvents (js : JumuahSettings) (now : LocalTime) (weekOffset : Nat) :
    List NotifEvent :=
  js.times.enum.filterMap fun p =>
    if now.toMs < jumuahFires js now weekOffset p.2 then
      some ⟨JUMUAH_BASE_ID + weekOffset * 10 + p.1, jumuahFires js now weekOffset p.2⟩
    else none

/-- All events the weekly pass batches over its `WEEKS_TO_SCHEDULE_JUMUAH`
week window. -/
def jumuahEvents (js : JumuahSettings) (now : LocalTime) : List NotifEvent :=
  (List.range WEEKS_TO_SCHEDULE_JUMUAH).flatMap fun w => jumuahWeekEvents js now w

/-- Does an id lie in the weekly Jumu'ah band 700-799? -/
def isJumuahId (id : Nat) : Bool := decide (JUMUAH_BASE_ID ≤ id ∧ id < 800)

/-- `cancelJumuahNotifications` from athanService.ts: cancels exactly the
pending entries whose id lies in the 700-799 band. -/
def cancelJumuahNotifications (pending : List NotifEvent) : List NotifEvent :=
  pending.filter fun e => !(isJumuahId e.id)

/-- `scheduleJumuahNotifications` from athanService.ts as a state transformer
on the external pending set.  It cancels its own 700-799 band first, before
either guard; then returns if disabled or no slots are configured; then
returns if permission is denied; otherwise batch-schedules the week window's
events. -/
def scheduleJumuahNotifications (hasPermission : Bool) (pending : List NotifEvent)
    (js : JumuahSettings) (now : LocalTime) : SchedulerResult :=
  let afterCancel := cancelJumuahNotifications pending
  if js.enabled = false ∨ js.times = [] then
    { pending := afterCancel, permissionRequested := false }
  else if hasPermission = false then
    { pending := afterCancel, permissionRequested := true }
  else
    { pending := afterCancel ++ jumuahEvents js now, permissionRequested := true }

/-! ### Travel settings and derived travel state (TravelContext.tsx) -/

/-- WGS84-ish coordinates in degrees (`Coordinates` in types.ts), embedded as
exact rationals. -/
structure Coordinates where
  latitude : ℚ
  longitude : ℚ
deriving DecidableEq, Repr

/-- A pinned home location (`HomeBaseLocation`; the display name fields have
no behavioral content and are omitted). -/
structure HomeBaseLocation where
  coordinates : Coordinates
deriving DecidableEq, Repr

/-- The travel override setting: `'auto' | 'force_on' | 'force_off'`. -/
inductive TravelOverride
  | auto
  | force_on
  | force_off
deriving DecidableEq, Repr

/-- `TravelSettings` from types.ts together with the `autoConfirmed` flag the
travel context reads and writes.  `travelStartDate` is the stored ISO date
parsed to a millisecond instant (`none` when null). -/
structure TravelSettings where
  enabled : Bool
  homeBase : Option HomeBaseLocation
  override : TravelOverride
  distanceThresholdKm : ℚ
  jamaDhuhrAsr : Bool
  jamaMaghribIsha : Bool
  maxTravelDays : Int
  travelStartDate : Option Int
  autoConfirmed : Bool
deriving DecidableEq, Repr

/-- The per-prayer shortening flags of the derived state. -/
structure QasrFlags where
  dhuhr : Bool
  asr : Bool
  isha : Bool
deriving DecidableEq, Repr

/-- The derived `TravelState` (recomputed on every read, never stored). -/
structure TravelState where
  isTraveling : Bool
  travelPending : Bool
  distanceFromHomeKm : Option ℚ
  isAutoDetected : Bool
  qasr : QasrFlags
  jamaDhuhrAsr : Bool
  jamaMaghribIsha : Bool
deriving DecidableEq, Repr

/-- `defaultTravelState` from TravelContext.tsx: everything off, no distance. -/
def defaultTravelState : TravelState :=
  { isTraveling := false
    travelPending := false
    distanceFromHomeKm := none
    isAutoDetected := false
    qasr := ⟨false, false, false⟩
    jamaDhuhrAsr := false
    jamaMaghribIsha := false }

/-- `(now - startDate) / (1000 * 60 * 60 * 24)`: elapsed days as an exact
rational, mirroring the source's floating-point day difference. -/
def daysDiff (nowMs startMs : Int) : ℚ :=
  ((nowMs - startMs : Int) : ℚ) / (1000 * 60 * 60 * 24)

/-- The `travelState` derivation (the `useMemo` body of TravelContext.tsx):
a pure function of the settings, the current location, the session `dismissed`
flag and the evaluation instant.  `dist` is the haversine distance
collaborator `calculateDistanceKm`. -/
def travelState (dist : Coordinates → Coordinates → ℚ) (s : TravelSettings)
    (loc : Coordinates) (dismissed : Bool) (nowMs : Int) : TravelState :=
  match s.homeBase with
  | none => defaultTravelState
  | some hb =>
    if s.enabled = false then defaultTravelState
    else if s.override = TravelOverride.force_off then defaultTravelState
    else
      let distance := dist hb.coordinates loc
      -- (isTraveling, isAutoDetected, travelPending) before the expiry check
      let flags : Bool × Bool × Bool :=
        if s.override = TravelOverride.force_on then (true, false, false)
        else if s.distanceThresholdKm ≤ distance then
          if s.autoConfirmed then (true, true, false) else (false, false, !dismissed)
        else (false, false, false)
      let isTraveling : Bool :=
        if flags.1 = true ∧ 0 < s.maxTravelDays then
          match s.travelStartDate with
          | some start =>
            if (s.maxTravelDays : ℚ) < daysDiff nowMs start then false else flags.1
          | none => flags.1
        else flags.1
      if isTraveling = false ∧ flags.2.2 = false then
        { defaultTravelState with distanceFromHomeKm := some distance }
      else if flags.2.2 = true then
        { defaultTravelState with travelPending := true, distanceFromHomeKm := some distance }
      else
        { isTraveling := true
          travelPending := false
          distanceFromHomeKm := some distance
          isAutoDetected := flags.2.1
          qasr := ⟨true, true, true⟩
          jamaDhuhrAsr := s.jamaDhuhrAsr
          jamaMaghribIsha := s.jamaMaghribIsha }

/-- `confirmTravel()` from TravelContext.tsx: merges
`{autoConfirmed: true, travelStartDate: today}` into the settings and clears
the session `dismissed` flag.  Returns (new settings, new dismissed flag). -/
def confirmTravel (s : TravelSettings) (todayMs : Int) : TravelSettings × Bool :=
  ({ s with autoConfirmed := true, travelStartDate := some todayMs }, false)

/-- One run of the TravelProvider location-update effect (the `useEffect` body
of TravelContext.tsx): given the settings, the current location, the
previous-distance ref and the session `dismissed` flag, it recomputes the
distance, stores it in the ref, and — when `autoConfirmed` is set, the
previous distance was at or above the threshold and the current one is below
it — clears `autoConfirmed` and `travelStartDate` and resets `dismissed`.
Returns (new settings, new previous-distance ref, new dismissed flag). -/
def locationUpdateEffect (dist : Coordinates → Coordinates → ℚ)
    (s : TravelSettings) (loc : Coordinates) (prevDistance : Option ℚ)
    (dismissed : Bool) : TravelSettings × Option ℚ × Bool :=
  match s.homeBase with
  | none => (s, prevDistance, dismissed)
  | some hb =>
    if s.enabled = false then (s, prevDistance, dismissed)
    else
      let distance := dist hb.coordinates loc
      let doReset : Bool :=
        s.autoConfirmed &&
          (match prevDistance with
           | some pd =>
             decide (s.distanceThresholdKm ≤ pd) && decide (distance < s.distanceThresholdKm)
           | none => false)
      if doReset then
        ({ s with autoConfirmed := false, travelStartDate := none }, some distance, false)
      else (s, some distance, dismissed)

/-! ### Concrete instances used by witnesses and counterexamples -/

/-- A per-prayer settings record with everything off. -/
def psOff : PrayerNotificationSettings := ⟨false, 0, false⟩

/-- A per-prayer settings record with a 10-minute reminder and at-time alert. -/
def psOn : PrayerNotificationSettings := ⟨true, 10, true⟩

/-- Notification settings: master switch on, every prayer off. -/
def nsAllOff : NotificationSettings := ⟨true, fun _ => psOff⟩

/-- Notification settings: master switch on, every prayer fully on. -/
def nsAllOn : NotificationSettings := ⟨true, fun _ => psOn⟩

/-- Notification settings: master switch off. -/
def nsDisabled : NotificationSettings := ⟨false, fun _ => psOn⟩

/-- A prayer-times oracle: on day offset `d` every prayer falls at hour 12 of
that day (relative to instant 0 = a midnight). -/
def exTimes : Nat → PrayerName → Int := fun d _ => (d : Int) * msPerDay + 12 * 3600000

/-- Jumu'ah settings with two slots (13:00 and 14:30) and a 30-minute
reminder. -/
def exJumuah : JumuahSettings := ⟨true, [⟨13, 0⟩, ⟨14, 30⟩], 30⟩

/-- Jumu'ah settings with a single 13:00 slot and a 30-minute reminder. -/
def exJumuahOne : JumuahSettings := ⟨true, [⟨13, 0⟩], 30⟩

/-- Midnight of epoch day 0 (a Thursday). -/
def exNowW : LocalTime := ⟨0, 0⟩

/-- A fixed current location. -/
def exLoc : Coordinates := ⟨10, 20⟩

/-- A fixed home base. -/
def exHome : HomeBaseLocation := ⟨⟨50, 60⟩⟩

/-- A distance collaborator that reports 100 km everywhere (far from home). -/
def distFar : Coordinates → Coordinates → ℚ := fun _ _ => 100

/-- A distance collaborator that reports 10 km everywhere (close to home). -/
def distNear : Coordinates → Coordinates → ℚ := fun _ _ => 10

/-- Travel settings: enabled, home base pinned, auto override, 88 km
threshold, auto-detection confirmed, trip started at instant 0, 4-day cap. -/
def tsAuto : TravelSettings :=
  { enabled := true
    homeBase := some exHome
    override := TravelOverride.auto
    distanceThresholdKm := 88
    jamaDhuhrAsr := false
    jamaMaghribIsha := false
    maxTravelDays := 4
    travelStartDate := some 0
    autoConfirmed := true }

/-- `tsAuto` with the override forced off. -/
def tsForcedOff : TravelSettings := { tsAuto with override := TravelOverride.force_off }

/-- `tsAuto` with the override forced on. -/
def tsForcedOn : TravelSettings := { tsAuto with override := TravelOverride.force_on }

/-! ### Helper lemmas about the id-band convention -/

theorem PRAYER_BASE_IDS_facts (p : PrayerName) :
    100 ≤ PRAYER_BASE_IDS p ∧ PRAYER_BASE_IDS p ≤ 600 ∧ PRAYER_BASE_IDS p % 100 = 0 := by
  revert p; decide

theorem PRAYER_BASE_IDS_inj {p q : PrayerName}
    (h : PRAYER_BASE_IDS p = PRAYER_BASE_IDS q) : p = q := by
  revert h; revert p q; decide

theorem getNotificationId_bounds {p : PrayerName} {d : Nat} {k : Bool}
    (hd : d < DAYS_TO_SCHEDULE) :
    100 ≤ getNotificationId p d k ∧ getNotificationId p d k < 700 := by
  obtain ⟨h1, h2, _⟩ := PRAYER_BASE_IDS_facts p
  unfold getNotificationId AT_TIME_OFFSET
  unfold DAYS_TO_SCHEDULE at hd
  cases k <;> simp only [if_true, if_false, Bool.false_eq_true, ite_true, ite_false] <;> omega

theorem getNotificationId_inj {p q : PrayerName} {d e : Nat} {k l : Bool}
    (hd : d < DAYS_TO_SCHEDULE) (he : e < DAYS_TO_SCHEDULE)
    (h : getNotificationId p d k = getNotificationId q e l) :
    p = q ∧ d = e ∧ k = l := by
  obtain ⟨hp1, hp2, hp3⟩ := PRAYER_BASE_IDS_facts p
  obtain ⟨hq1, hq2, hq3⟩ := PRAYER_BASE_IDS_facts q
  unfold getNotificationId AT_TIME_OFFSET at h
  unfold DAYS_TO_SCHEDULE at hd he
  have hoff : ∀ b : Bool, (if b then 1 else 0) ≤ 1 := by decide
  have hbase : PRAYER_BASE_IDS p = PRAYER_BASE_IDS q ∧ d = e ∧
      (if k then 1 else 0) = (if l then 1 else 0) := by
    have h1 := hoff k
    have h2 := hoff l
    omega
  refine ⟨PRAYER_BASE_IDS_inj hbase.1, hbase.2.1, ?_⟩
  have := hbase.2.2
  cases k <;> cases l <;> simp_all

theorem mem_corePrayers (p : PrayerName) : p ∈ corePrayers := by
  cases p <;> decide

/-! ### Helper lemmas: membership in the daily event batch -/

theorem mem_prayerDayEvents {times : Nat → PrayerName → Int}
    {s : NotificationSettings} {now : Int} {d : Nat} {p : PrayerName}
    {e : NotifEvent} :
    e ∈ prayerDayEvents times s now d p ↔
      (s.prayers p).enabled = true ∧
        ((0 < (s.prayers p).reminderMinutes ∧
            now < times d p - ((s.prayers p).reminderMinutes : Int) * 60000 ∧
            e = ⟨getNotificationId p d false,
                 times d p - ((s.prayers p).reminderMinutes : Int) * 60000⟩) ∨
         ((s.prayers p).atPrayerTime = true ∧ now < times d p ∧
            e = ⟨getNotificationId p d true, times d p⟩)) := by
  unfold prayerDayEvents
  by_cases he : (s.prayers p).enabled = true
  · by_cases hr : 0 < (s.prayers p).reminderMinutes ∧
        now < times d p - ((s.prayers p).reminderMinutes : Int) * 60000 <;>
      by_cases ha : (s.prayers p).atPrayerTime = true ∧ now < times d p <;>
      simp [he, hr, ha] <;> tauto
  · simp [he]

theorem mem_dailyEvents {times : Nat → PrayerName → Int}
    {s : NotificationSettings} {now : Int} {e : NotifEvent} :
    e ∈ dailyEvents times s now ↔
      ∃ d, d < DAYS_TO_SCHEDULE ∧ ∃ p, e ∈ prayerDayEvents times s now d p := by
  unfold dailyEvents
  simp only [List.mem_flatMap, List.mem_range]
  constructor
  · rintro ⟨d, hd, p, _, hmem⟩
    exact ⟨d, hd, p, hmem⟩
  · rintro ⟨d, hd, p, hmem⟩
    exact ⟨d, hd, p, mem_corePrayers p, hmem⟩

/-! ### Claim theorems -/

/-- Claim C10: if the global `notifications.enabled` flag is false,
`scheduleNotifications` cancels every pending notification — the whole
pending set, the weekly 700-799 band included — schedules nothing, and
returns without consulting the permission gate. -/
theorem c10_disabled_cancels_everything (hasPermission : Bool)
    (pending : List NotifEvent) (times : Nat → PrayerName → Int)
    (s : NotificationSettings) (now : Int) (h : s.enabled = false) :
    scheduleNotifications hasPermission pending times s now =
      { pending := [], permissionRequested := false } := by
  simp [scheduleNotifications, h, cancelAllNotifications]

/-- Witness for C10 at a concrete input: a pending set holding a weekly-band
event (id 700) and a daily-band event (id 150) is wiped, nothing is
scheduled, and the permission gate is never consulted. -/
theorem c10_disabled_cancels_everything_witness :
    scheduleNotifications true [⟨700, 1⟩, ⟨150, 2⟩] exTimes nsDisabled 0 =
      { pending := [], permissionRequested := false } :=
  c10_disabled_cancels_everything true [⟨700, 1⟩, ⟨150, 2⟩] exTimes nsDisabled 0 rfl

/-- Claim C3: the daily reconcile is idempotent.  Part 1: running the pass a
second time starting from the pending set the first run left behind, with
identical inputs, yields the same final pending set.  Part 2: when the pass
actually runs (enabled, permission granted), the final pending set does not
depend on the prior pending set at all. -/
theorem c3_reconcile_idempotent (hasPermission : Bool)
    (pending p₁ p₂ : List NotifEvent) (times : Nat → PrayerName → Int)
    (s : NotificationSettings) (now : Int) :
    (scheduleNotifications hasPermission
        (scheduleNotifications hasPermission pending times s now).pending
        times s now).pending =
      (scheduleNotifications hasPermission pending times s now).pending ∧
    (s.enabled = true → hasPermission = true →
      (scheduleNotifications hasPermission p₁ times s now).pending =
        (scheduleNotifications hasPermission p₂ times s now).pending) := by
  cases hs : s.enabled <;> cases hasPermission <;>
    simp [scheduleNotifications, cancelAllNotifications, hs]

/-- Witness for C3's second part at a concrete input: starting from a
corrupted pending set (a stray weekly-band event) or from an empty one, the
enabled-and-permitted pass lands on the same final pending set. -/
theorem c3_reconcile_idempotent_witness :
    (scheduleNotifications true [⟨700, 0⟩] exTimes nsAllOn 0).pending =
      (scheduleNotifications true [] exTimes nsAllOn 0).pending :=
  (c3_reconcile_idempotent true [] [⟨700, 0⟩] [] exTimes nsAllOn 0).2 rfl rfl

/-- Counterexample to claim C1 as stated: the daily pass does NOT cancel only
the prayer bands 100-699.  With notifications enabled, permission granted and
a weekly-band event (id 700) pending, the pass leaves a final pending set
with no weekly-band entry at all (here: empty, since every prayer is
disabled), instead of keeping it pending and unchanged. -/
theorem c1_weekly_band_not_preserved_cex :
    (scheduleNotifications true [⟨700, 0⟩] exTimes nsAllOff 0).pending = [] := by
  decide

/-- Claim C1 (amended): the daily pass's cancellation step cancels every
pending notification, the weekly band included; after `scheduleNotifications`
completes with notifications enabled and permission granted, every pending id
lies in the daily prayer bands 100-699 — so no weekly-band 700-799
notification is pending, whatever the pending set contained before. -/
theorem c1_final_pending_in_prayer_bands (pending : List NotifEvent)
    (times : Nat → PrayerName → Int) (s : NotificationSettings) (now : Int)
    (h : s.enabled = true) :
    ∀ e ∈ (scheduleNotifications true pending times s now).pending,
      100 ≤ e.id ∧ e.id < 700 := by
  intro e he
  simp only [scheduleNotifications, h, cancelAllNotifications,
    Bool.true_eq_false, if_false, List.nil_append] at he
  rw [mem_dailyEvents] at he
  obtain ⟨d, hd, p, hmem⟩ := he
  rw [mem_prayerDayEvents] at hmem
  rcases hmem.2 with ⟨_, _, rfl⟩ | ⟨_, _, rfl⟩ <;> exact getNotificationId_bounds hd

/-- Witness for C1 (amended) at a concrete input: a pending weekly-band event
(id 700) is no longer pending after an enabled, permitted daily pass. -/
theorem c1_final_pending_in_prayer_bands_witness :
    (⟨700, 0⟩ : NotifEvent) ∉
      (scheduleNotifications true [⟨700, 0⟩] exTimes nsAllOn 0).pending :=
  fun hmem =>
    absurd (c1_final_pending_in_prayer_bands [⟨700, 0⟩] exTimes nsAllOn 0 rfl
      ⟨700, 0⟩ hmem).2 (by decide)

/-- Counterexample to claim C2 as stated: with permission denied, the weekly
Jumu'ah pass is NOT skipped entirely — its first step cancels the 700-799
band before the permission check runs.  Here a pending weekly event (id 700)
disappears even though permission is denied, so the previously pending set is
changed. -/
theorem c2_jumuah_pass_cancels_when_denied_cex :
    (scheduleJumuahNotifications false [⟨700, 123⟩] exJumuahOne exNowW).pending = [] := by
  decide

/-- Claim C2 (amended): with permission denied, the daily pass (notifications
enabled) issues no cancellations and no schedules, leaving the pending set
unchanged; the weekly pass always cancels its own 700-799 band first and,
with permission denied, schedules nothing, so its final pending set is the
prior one with exactly the weekly band removed (events outside the band are
untouched). -/
theorem c2_permission_denied_behavior (pending pj : List NotifEvent)
    (times : Nat → PrayerName → Int) (s : NotificationSettings) (now : Int)
    (js : JumuahSettings) (noww : LocalTime) :
    (s.enabled = true →
      scheduleNotifications false pending times s now =
        { pending := pending, permissionRequested := true }) ∧
    (scheduleJumuahNotifications false pj js noww).pending =
      cancelJumuahNotifications pj := by
  constructor
  · intro h
    simp [scheduleNotifications, h]
  · unfold scheduleJumuahNotifications
    by_cases hguard : js.enabled = false ∨ js.times = [] <;> simp [hguard]

/-- Witness for C2 (amended) at a concrete input: with permission denied the
daily pass leaves its pending set untouched, and the weekly pass removes
exactly the weekly-band entry (id 700) while keeping the daily-band entry
(id 150). -/
theorem c2_permission_denied_behavior_witness :
    scheduleNotifications false [⟨150, 9⟩] exTimes nsAllOn 0 =
      { pending := [⟨150, 9⟩], permissionRequested := true } ∧
    (scheduleJumuahNotifications false [⟨700, 1⟩, ⟨150, 9⟩] exJumuahOne exNowW).pending =
      [⟨150, 9⟩] :=
  ⟨(c2_permission_denied_behavior [⟨150, 9⟩] [] exTimes nsAllOn 0 exJumuahOne exNowW).1 rfl,
   ((c2_permission_denied_behavior [] [⟨700, 1⟩, ⟨150, 9⟩] exTimes nsAllOn 0
      exJumuahOne exNowW).2).trans (by decide)⟩

/-- Counterexample to claim C4 as stated: `confirmTravel()` does NOT leave an
already-set `travelStartDate` unchanged.  With the start date set to instant
0, confirming on a later day overwrites it with today's date. -/
theorem c4_confirmTravel_overwrites_start_date_cex :
    tsAuto.travelStartDate = some 0 ∧
      (confirmTravel tsAuto 86400000).1.travelStartDate ≠ some 0 := by
  decide

/-- Claim C4 (amended): for every settings state, `confirmTravel()` sets
`autoConfirmed` to true, clears the session dismissed flag, and
unconditionally sets `travelStartDate` to today's date — overwriting any
previously set value; all other settings fields are preserved. -/
theorem c4_confirmTravel_fields (s : TravelSettings) (todayMs : Int) :
    (confirmTravel s todayMs).1.autoConfirmed = true ∧
    (confirmTravel s todayMs).2 = false ∧
    (confirmTravel s todayMs).1.travelStartDate = some todayMs ∧
    (confirmTravel s todayMs).1.enabled = s.enabled ∧
    (confirmTravel s todayMs).1.homeBase = s.homeBase ∧
    (confirmTravel s todayMs).1.override = s.override ∧
    (confirmTravel s todayMs).1.distanceThresholdKm = s.distanceThresholdKm ∧
    (confirmTravel s todayMs).1.jamaDhuhrAsr = s.jamaDhuhrAsr ∧
    (confirmTravel s todayMs).1.jamaMaghribIsha = s.jamaMaghribIsha ∧
    (confirmTravel s todayMs).1.maxTravelDays = s.maxTravelDays := by
  simp [confirmTravel]

/-- Counterexample to claim C5 as stated: with travel enabled, a home base
pinned and the override forced off, the derived state's `distanceFromHomeKm`
is null — the source returns `defaultTravelState` before ever computing the
distance, rather than reporting the great-circle distance to home. -/
theorem c5_forceoff_distance_is_null_cex :
    (travelState distFar tsForcedOff exLoc false 0).distanceFromHomeKm = none := by
  decide

/-- Claim C5 (amended): when travel is enabled, a home base exists and the
override is `force_off`, the derived state is exactly `defaultTravelState`:
all shortening/combining flags off, `isTraveling` false, and
`distanceFromHomeKm` null (the distance is not computed, for any distance
collaborator). -/
theorem c5_forceoff_yields_default (dist : Coordinates → Coordinates → ℚ)
    (s : TravelSettings) (loc : Coordinates) (dismissed : Bool) (nowMs : Int)
    (hb : HomeBaseLocation) (h1 : s.enabled = true) (h2 : s.homeBase = some hb)
    (h3 : s.override = TravelOverride.force_off) :
    travelState dist s loc dismissed nowMs = defaultTravelState := by
  unfold travelState
  rw [h2]
  simp [h1, h3]

/-- Witness for C5 (amended) at a concrete input. -/
theorem c5_forceoff_yields_default_witness :
    travelState distFar tsForcedOff exLoc false 0 = defaultTravelState :=
  c5_forceoff_yields_default distFar tsForcedOff exLoc false 0 exHome rfl rfl rfl

/-- Claim C6: when the travel condition otherwise holds (`force_on`, or auto
with `autoConfirmed` and distance at or above the threshold), `maxTravelDays`
is positive, `travelStartDate` is set, and the elapsed days strictly exceed
`maxTravelDays`, the derived state has `isTraveling = false`.  The derivation
is a pure function of the settings, so `override` and `autoConfirmed`
themselves are untouched by it — expiry suppresses the effect without erasing
the setting. -/
theorem c6_max_travel_days_expiry (dist : Coordinates → Coordinates → ℚ)
    (s : TravelSettings) (loc : Coordinates) (dismissed : Bool) (nowMs : Int)
    (hb : HomeBaseLocation) (start : Int)
    (h1 : s.enabled = true) (h2 : s.homeBase = some hb)
    (h3 : s.override = TravelOverride.force_on ∨
      (s.override = TravelOverride.auto ∧ s.autoConfirmed = true ∧
        s.distanceThresholdKm ≤ dist hb.coordinates loc))
    (h4 : 0 < s.maxTravelDays) (h5 : s.travelStartDate = some start)
    (h6 : (s.maxTravelDays : ℚ) < daysDiff nowMs start) :
    (travelState dist s loc dismissed nowMs).isTraveling = false := by
  unfold travelState
  rw [h2]
  rcases h3 with h3 | ⟨h3, hconf, hfar⟩
  · simp [h1, h3, h4, h5, h6, defaultTravelState]
  · simp [h1, h3, hconf, hfar, h4, h5, h6, defaultTravelState]

/-- Witness for C6 at the spec's own concrete instance: `maxTravelDays = 4`,
`travelStartDate` 5 days in the past, `autoConfirmed = true`, 100 km from
home against an 88 km threshold — yet `isTraveling = false`. -/
theorem c6_max_travel_days_expiry_witness :
    (travelState distFar tsAuto exLoc false (5 * 86400000)).isTraveling = false :=
  c6_max_travel_days_expiry distFar tsAuto exLoc false (5 * 86400000) exHome 0
    rfl rfl (Or.inr ⟨rfl, rfl, by decide⟩) (by decide) rfl
    (by norm_num [daysDiff, tsAuto])

/-- Counterexample to claim C7 as stated: the auto-reset effect fires even
under `override = force_on` (it checks only `autoConfirmed` and the two
distances), and there the claim's conclusion fails: `autoConfirmed` and
`travelStartDate` are indeed cleared and `dismissed` reset, yet the next
derived state still has `isTraveling = true`, because the forced override
keeps travel on. -/
theorem c7_force_on_reset_still_traveling_cex :
    (locationUpdateEffect distNear tsForcedOn exLoc (some 100) true).1.autoConfirmed
        = false ∧
    (locationUpdateEffect distNear tsForcedOn exLoc (some 100) true).1.travelStartDate
        = none ∧
    (locationUpdateEffect distNear tsForcedOn exLoc (some 100) true).2.2 = false ∧
    (travelState distNear
      (locationUpdateEffect distNear tsForcedOn exLoc (some 100) true).1 exLoc
      (locationUpdateEffect distNear tsForcedOn exLoc (some 100) true).2.2
      0).isTraveling = true := by
  decide

/-- Claim C7 (amended): on a location update with `autoConfirmed = true`, the
previous evaluation's distance at or above the threshold and the current one
below it, the machine clears `autoConfirmed` and `travelStartDate` and resets
`dismissed` to false; provided the override is not `force_on`, the next
derived state has `isTraveling = false`. -/
theorem c7_auto_reset_on_return (dist : Coordinates → Coordinates → ℚ)
    (s : TravelSettings) (loc : Coordinates) (prevDistance : Option ℚ)
    (dismissed : Bool) (nowMs : Int) (hb : HomeBaseLocation) (pd : ℚ)
    (h1 : s.enabled = true) (h2 : s.homeBase = some hb)
    (h3 : s.autoConfirmed = true) (h4 : prevDistance = some pd)
    (h5 : s.distanceThresholdKm ≤ pd)
    (h6 : dist hb.coordinates loc < s.distanceThresholdKm)
    (h7 : s.override ≠ TravelOverride.force_on) :
    (locationUpdateEffect dist s loc prevDistance dismissed).1.autoConfirmed = false ∧
    (locationUpdateEffect dist s loc prevDistance dismissed).1.travelStartDate = none ∧
    (locationUpdateEffect dist s loc prevDistance dismissed).2.2 = false ∧
    (travelState dist (locationUpdateEffect dist s loc prevDistance dismissed).1 loc
      (locationUpdateEffect dist s loc prevDistance dismissed).2.2 nowMs).isTraveling
        = false := by
  have heff : locationUpdateEffect dist s loc prevDistance dismissed =
      ({ s with autoConfirmed := false, travelStartDate := none },
        some (dist hb.coordinates loc), false) := by
    unfold locationUpdateEffect
    rw [h2]
    simp [h1, h3, h4, h5, h6]
  rw [heff]
  refine ⟨rfl, rfl, rfl, ?_⟩
  unfold travelState
  have hhb : ({ s with autoConfirmed := false, travelStartDate := none } :
      TravelSettings).homeBase = some hb := h2
  rw [hhb]
  have h6' : ¬ (s.distanceThresholdKm ≤ dist hb.coordinates loc) := not_le.mpr h6
  rcases ho : s.override with _ | _ | _
  · simp [h1, ho, h6', defaultTravelState]
  · exact absurd ho h7
  · simp [h1, ho, defaultTravelState]

/-- Witness for C7 (amended) at a concrete input: auto override, confirmed
travel, previous distance 100 km, current distance 10 km against an 88 km
threshold. -/
theorem c7_auto_reset_on_return_witness :
    (locationUpdateEffect distNear tsAuto exLoc (some 100) true).1.autoConfirmed = false ∧
    (locationUpdateEffect distNear tsAuto exLoc (some 100) true).1.travelStartDate = none ∧
    (locationUpdateEffect distNear tsAuto exLoc (some 100) true).2.2 = false ∧
    (travelState distNear (locationUpdateEffect distNear tsAuto exLoc (some 100) true).1
      exLoc (locationUpdateEffect distNear tsAuto exLoc (some 100) true).2.2
      0).isTraveling = false :=
  c7_auto_reset_on_return distNear tsAuto exLoc (some 100) true 0 exHome 100
    rfl rfl rfl rfl (by decide) (by decide) (by decide)

/-- Claim C8: during a daily reconcile, for every day in the window and every
prayer, (1) the reminder event is emitted iff the prayer is enabled,
`reminderMinutes > 0`, and the prayer instant minus the reminder lead is
strictly after the reconciliation timestamp; (2) the at-time event is emitted
iff the prayer is enabled, `atPrayerTime` is set, and the instant itself is
strictly future; (3) a prayer instant already past today produces no day-0
event of either kind for that prayer; and (4) the same prayer is still
scheduled on day 1 of the window when its instant there is future. -/
theorem c8_daily_emission_characterization (times : Nat → PrayerName → Int)
    (s : NotificationSettings) (now : Int) :
    (∀ p d, d < DAYS_TO_SCHEDULE →
      ((⟨getNotificationId p d false,
          times d p - ((s.prayers p).reminderMinutes : Int) * 60000⟩ : NotifEvent)
          ∈ dailyEvents times s now ↔
        (s.prayers p).enabled = true ∧ 0 < (s.prayers p).reminderMinutes ∧
          now < times d p - ((s.prayers p).reminderMinutes : Int) * 60000)) ∧
    (∀ p d, d < DAYS_TO_SCHEDULE →
      ((⟨getNotificationId p d true, times d p⟩ : NotifEvent)
          ∈ dailyEvents times s now ↔
        (s.prayers p).enabled = true ∧ (s.prayers p).atPrayerTime = true ∧
          now < times d p)) ∧
    (∀ p, times 0 p ≤ now →
      ∀ e ∈ dailyEvents times s now,
        e.id ≠ getNotificationId p 0 false ∧ e.id ≠ getNotificationId p 0 true) ∧
    (∀ p, (s.prayers p).enabled = true → (s.prayers p).atPrayerTime = true →
      now < times 1 p →
      (⟨getNotificationId p 1 true, times 1 p⟩ : NotifEvent)
        ∈ dailyEvents times s now) := by
  have hfwd : ∀ e ∈ dailyEvents times s now,
      ∃ q k, k < DAYS_TO_SCHEDULE ∧ (s.prayers q).enabled = true ∧
        ((0 < (s.prayers q).reminderMinutes ∧
            now < times k q - ((s.prayers q).reminderMinutes : Int) * 60000 ∧
            e = ⟨getNotificationId q k false,
                 times k q - ((s.prayers q).reminderMinutes : Int) * 60000⟩) ∨
         ((s.prayers q).atPrayerTime = true ∧ now < times k q ∧
            e = ⟨getNotificationId q k true, times k q⟩)) := by
    intro e he
    rw [mem_dailyEvents] at he
    obtain ⟨k, hk, q, hmem⟩ := he
    rw [mem_prayerDayEvents] at hmem
    exact ⟨q, k, hk, hmem.1, hmem.2⟩
  refine ⟨?_, ?_, ?_, ?_⟩
  · intro p d hd
    constructor
    · intro hmem
      obtain ⟨q, k, hk, hen, hcase⟩ := hfwd _ hmem
      rcases hcase with ⟨hrm, hfut, heq⟩ | ⟨_, _, heq⟩
      · rw [NotifEvent.mk.injEq] at heq
        obtain ⟨rfl, rfl, _⟩ := getNotificationId_inj hd hk heq.1
        exact ⟨hen, hrm, hfut⟩
      · rw [NotifEvent.mk.injEq] at heq
        exact absurd (getNotificationId_inj hd hk heq.1).2.2 (by decide)
    · rintro ⟨hen, hrm, hfut⟩
      rw [mem_dailyEvents]
      refine ⟨d, hd, p, ?_⟩
      rw [mem_prayerDayEvents]
      exact ⟨hen, Or.inl ⟨hrm, hfut, rfl⟩⟩
  · intro p d hd
    constructor
    · intro hmem
      obtain ⟨q, k, hk, hen, hcase⟩ := hfwd _ hmem
      rcases hcase with ⟨_, _, heq⟩ | ⟨hat, hfut, heq⟩
      · rw [NotifEvent.mk.injEq] at heq
        exact absurd (getNotificationId_inj hd hk heq.1).2.2 (by decide)
      · rw [NotifEvent.mk.injEq] at heq
        obtain ⟨rfl, rfl, _⟩ := getNotificationId_inj hd hk heq.1
        exact ⟨hen, hat, hfut⟩
    · rintro ⟨hen, hat, hfut⟩
      rw [mem_dailyEvents]
      refine ⟨d, hd, p, ?_⟩
      rw [mem_prayerDayEvents]
      exact ⟨hen, Or.inr ⟨hat, hfut, rfl⟩⟩
  · intro p hpast e hmem
    obtain ⟨q, k, hk, _, hcase⟩ := hfwd _ hmem
    have hlead : (0 : Int) ≤ ((s.prayers q).reminderMinutes : Int) * 60000 := by
      positivity
    constructor
    · intro hid
      rcases hcase with ⟨_, hfut, heq⟩ | ⟨_, hfut, heq⟩
      · rw [heq] at hid
        obtain ⟨rfl, rfl, _⟩ :=
          getNotificationId_inj hk (by decide : (0 : Nat) < DAYS_TO_SCHEDULE) hid
        omega
      · rw [heq] at hid
        exact absurd
          (getNotificationId_inj hk (by decide : (0 : Nat) < DAYS_TO_SCHEDULE) hid).2.2
          (by decide)
    · intro hid
      rcases hcase with ⟨_, hfut, heq⟩ | ⟨_, hfut, heq⟩
      · rw [heq] at hid
        exact absurd
          (getNotificationId_inj hk (by decide : (0 : Nat) < DAYS_TO_SCHEDULE) hid).2.2
          (by decide)
      · rw [heq] at hid
        obtain ⟨rfl, rfl, _⟩ :=
          getNotificationId_inj hk (by decide : (0 : Nat) < DAYS_TO_SCHEDULE) hid
        omega
  · intro p hen hat hfut
    rw [mem_dailyEvents]
    refine ⟨1, by decide, p, ?_⟩
    rw [mem_prayerDayEvents]
    exact ⟨hen, Or.inr ⟨hat, hfut, rfl⟩⟩

/-- Witness for C8 at a concrete input: with every prayer enabled and all of
day 0 already past (`now` at the end of day 0), the theorem yields that no
day-0 fajr event of either kind is pending in the batch, while the day-1
fajr at-time event is emitted. -/
theorem c8_daily_emission_characterization_witness :
    (∀ e ∈ dailyEvents exTimes nsAllOn (20 * 3600000),
      e.id ≠ getNotificationId PrayerName.fajr 0 false ∧
        e.id ≠ getNotificationId PrayerName.fajr 0 true) ∧
    (⟨getNotificationId PrayerName.fajr 1 true, exTimes 1 PrayerName.fajr⟩ : NotifEvent)
      ∈ dailyEvents exTimes nsAllOn (20 * 3600000) :=
  ⟨(c8_daily_emission_characterization exTimes nsAllOn (20 * 3600000)).2.2.1
      PrayerName.fajr (by decide),
   (c8_daily_emission_characterization exTimes nsAllOn (20 * 3600000)).2.2.2
      PrayerName.fajr rfl rfl (by decide)⟩

/-! ### Helper lemmas for the weekly scheduler -/

theorem daysUntilFriday_bounds (t : LocalTime) :
    1 ≤ daysUntilFriday t ∧ daysUntilFriday t ≤ 7 := by
  unfold daysUntilFriday
  have h0 : 0 ≤ (5 - getDay t + 7) % 7 := Int.emod_nonneg _ (by norm_num)
  have h7 : (5 - getDay t + 7) % 7 < 7 := Int.emod_lt_of_pos _ (by norm_num)
  split_ifs with h <;> omega

theorem jumuahFires_future_of_week_ge_one (js : JumuahSettings) (now : LocalTime)
    (w : Nat) (slot : JumuahTime) (h0 : 0 ≤ now.ms) (h1 : now.ms < msPerDay)
    (hw : 1 ≤ w)
    (hrm : js.reminderMinutes ≤ slot.khutbahHour * 60 + slot.khutbahMinute + 7 * 1440) :
    now.toMs < jumuahFires js now w slot := by
  obtain ⟨hd1, hd7⟩ := daysUntilFriday_bounds now
  unfold jumuahFires LocalTime.toMs
  unfold msPerDay msPerMinute at *
  have hw' : (1 : Int) ≤ (w : Int) := by exact_mod_cast hw
  nlinarith [hd1, hw', hrm, h1]

theorem jumuahWeekEvents_length_two (js : JumuahSettings) (now : LocalTime)
    (w : Nat) (a b : JumuahTime) (hab : js.times = [a, b])
    (ha : now.toMs < jumuahFires js now w a)
    (hb : now.toMs < jumuahFires js now w b) :
    (jumuahWeekEvents js now w).length = 2 := by
  unfold jumuahWeekEvents
  rw [hab]
  have he : ([a, b] : List JumuahTime).enum = [(0, a), (1, b)] := rfl
  rw [he]
  simp [List.filterMap, ha, hb]

/-- Claim C9: (1) with Jumu'ah enabled, exactly two configured slots, and
every (week, slot) fire instant of the 4-week window strictly future, the
weekly pass leaves exactly 8 pending events — one per (week, slot) pair;
(2) for any week offset of at least 1, a slot's fire instant is always
strictly future (provided the reminder lead does not reach a full week past
the slot time), so the already-passed-this-week exclusion can only shrink
week 0. -/
theorem c9_weekly_window_count (js : JumuahSettings) (now : LocalTime)
    (h0 : 0 ≤ now.ms) (h1 : now.ms < msPerDay) :
    (js.enabled = true → js.times.length = 2 →
      (∀ w, w < WEEKS_TO_SCHEDULE_JUMUAH → ∀ slot ∈ js.times,
        now.toMs < jumuahFires js now w slot) →
      ((scheduleJumuahNotifications true [] js now).pending).length = 8) ∧
    (∀ w : Nat, 1 ≤ w → ∀ slot ∈ js.times,
      js.reminderMinutes ≤ slot.khutbahHour * 60 + slot.khutbahMinute + 7 * 1440 →
      now.toMs < jumuahFires js now w slot) := by
  constructor
  · intro hen hlen hfut
    obtain ⟨a, b, hab⟩ := List.length_eq_two.mp hlen
    have hne : ¬(js.enabled = false ∨ js.times = []) := by
      rw [hen, hab]; simp
    have hmema : a ∈ js.times := by rw [hab]; simp
    have hmemb : b ∈ js.times := by rw [hab]; simp
    have hpend : (scheduleJumuahNotifications true [] js now).pending =
        jumuahEvents js now := by
      unfold scheduleJumuahNotifications cancelJumuahNotifications
      simp [hne]
    rw [hpend]
    unfold jumuahEvents WEEKS_TO_SCHEDULE_JUMUAH
    have hr : List.range 4 = [0, 1, 2, 3] := rfl
    rw [hr]
    simp only [List.flatMap_cons, List.flatMap_nil, List.append_nil,
      List.length_append]
    have e0 := jumuahWeekEvents_length_two js now 0 a b hab
      (hfut 0 (by decide) a hmema) (hfut 0 (by decide) b hmemb)
    have e1 := jumuahWeekEvents_length_two js now 1 a b hab
      (hfut 1 (by decide) a hmema) (hfut 1 (by decide) b hmemb)
    have e2 := jumuahWeekEvents_length_two js now 2 a b hab
      (hfut 2 (by decide) a hmema) (hfut 2 (by decide) b hmemb)
    have e3 := jumuahWeekEvents_length_two js now 3 a b hab
      (hfut 3 (by decide) a hmema) (hfut 3 (by decide) b hmemb)
    omega
  · intro w hw slot _ hrm
    exact jumuahFires_future_of_week_ge_one js now w slot h0 h1 hw hrm

/-- Witness for C9 at a concrete input: two slots (13:00 and 14:30, 30-minute
reminder) evaluated at a Thursday midnight — all 8 fire instants are future
and exactly 8 events are left pending. -/
theorem c9_weekly_window_count_witness :
    ((scheduleJumuahNotifications true [] exJumuah exNowW).pending).length = 8 :=
  (c9_weekly_window_count exJumuah exNowW (by decide) (by decide)).1 rfl rfl
    (by decide)

end OnTime
